import Mathlib

/-!
# Nimbus core — shallow embedding and verification

A shallow embedding of the core of the Nimbus event-driven messaging
framework (TypeScript), covering:

* the error taxonomy (`Exception`, `InvalidInputException`,
  `NotFoundException`, `GenericException`, `fromZodError`) from
  `packages/core/src/lib/exception/*`;
* the `MessageRouter.route` dispatch algorithm from
  `packages/core/src/lib/message/router.ts`;
* the legacy functional `createRouter` from `lib/router/router.ts`;
* the `NimbusEventBus` publish / retry / backoff machinery
  (`putEvent`, `_processEvent`, `_handleFinalFailure`,
  `_calculateRetryDelay`, `_validateEventSize`) from
  `lib/eventBus/eventBus.ts`;
* the message factories (`createCommand`, `createQuery`, `createEvent`).

JavaScript `number` arithmetic in the retry-delay computation is modelled
over `ℚ` (the values involved are exact in both models); machine-level
float rounding is not relevant to the properties proved here.
-/

namespace Nimbus

/-! ## Error taxonomy

Mirrors `exception.ts` and its subclasses.  A JS `Error#stack` is a
`string | undefined`; we model it as `Option String` where `none` stands
for the exception's own freshly captured stack trace (its concrete text
is irrelevant to dispatch semantics).
-/

/-- One entry of a Zod issue list, as in the repository's router tests
(`{path, code, message, expected?, received?}`). -/
structure ZodIssue where
  code : String
  expected : Option String
  received : Option String
  path : List String
  message : String
deriving DecidableEq, Repr

/-- A Zod validation error: its `issues` array plus its `stack`. -/
structure ZodError where
  issues : List ZodIssue
  stack : Option String
deriving DecidableEq, Repr

/-- The `details` payloads actually constructed by the core.  Each
constructor corresponds to one object literal in the source:
`noDetails` = the `details` argument omitted; `notFoundReason` = the
`{reason}` object of the two routers; `zodIssues` = the `{issues}`
object set by `fromZodError`; `eventSize` = the size-violation payload
of `_validateEventSize`; `retryConfig` = the payload of
`_handleFinalFailure`. -/
inductive ExceptionDetails where
  | noDetails : ExceptionDetails
  | notFoundReason (reason : String) : ExceptionDetails
  | zodIssues (issues : List ZodIssue) : ExceptionDetails
  | eventSize (eventType eventSource : String) (eventSizeBytes maxSizeBytes : Nat) :
      ExceptionDetails
  | retryConfig (maxRetries baseDelay maxDelay : Nat) : ExceptionDetails
deriving DecidableEq, Repr

/-- The base `Exception` class of `exception.ts`: `name`, `message`,
optional `details`, optional `statusCode`, and a stack (`none` = the
exception's own captured stack). -/
structure Exception where
  name : String
  message : String
  details : ExceptionDetails
  statusCode : Option Nat
  stack : Option String
deriving DecidableEq, Repr

/-- JS truthiness of a `string | undefined` value: `undefined` and the
empty string are falsy. -/
def jsTruthyStr : Option String → Bool
  | none => false
  | some s => !(s == "")

/-- `new InvalidInputException(message?, details?)`:
name `INVALID_INPUT`, default message `Invalid input`, status 400. -/
def invalidInputException (message : Option String) (details : ExceptionDetails) :
    Exception :=
  { name := "INVALID_INPUT"
    message := message.getD "Invalid input"
    details := details
    statusCode := some 400
    stack := none }

/-- `new NotFoundException(message?, details?)`:
name `NOT_FOUND`, default message `Not found`, status 404. -/
def notFoundException (message : Option String) (details : ExceptionDetails) :
    Exception :=
  { name := "NOT_FOUND"
    message := message.getD "Not found"
    details := details
    statusCode := some 404
    stack := none }

/-- `new GenericException(message?, details?)`:
name `INTERNAL_SERVER_ERROR`, default message `Internal server error`,
status 500. -/
def genericException (message : Option String) (details : ExceptionDetails) :
    Exception :=
  { name := "INTERNAL_SERVER_ERROR"
    message := message.getD "Internal server error"
    details := details
    statusCode := some 500
    stack := none }

/-- `InvalidInputException.fromZodError`: copies the Zod error's stack
when truthy (`if (error.stack)`) and replaces `details` by
`{issues: error.issues}` (a JS array is always truthy, so the
`if (error.issues)` guard in the source always fires). -/
def Exception.fromZodError (e : Exception) (err : ZodError) : Exception :=
  { e with
    stack := if jsTruthyStr err.stack then err.stack else e.stack
    details := ExceptionDetails.zodIssues err.issues }

/-! ## Message router (`message/router.ts`)

`route(input)` takes an arbitrary (`any`) value; the only attributes it
inspects itself are `type` and `correlationid`.  We model such an input
as a `type` attribute (`Option String`, `none` = attribute absent), a
`correlationid`, and an arbitrary body `α` carrying everything else.

A registered Zod schema is a function from the input to a
`ValidationResult`: on success `safeParse` yields a `data` value that
the router passes to the handler (Zod object schemas in their default,
non-strict mode return the object with unknown keys stripped, so `data`
need not equal the input).
-/

/-- An inbound message as seen by `MessageRouter.route`. -/
structure RouterInput (α : Type) where
  type : Option String
  correlationid : Option String
  body : α
deriving DecidableEq, Repr

/-- Result of `schema.safeParse(input)`. -/
inductive ValidationResult (μ : Type) where
  | success (data : μ) : ValidationResult μ
  | failure (error : ZodError) : ValidationResult μ
deriving DecidableEq, Repr

/-- One registration of `MessageRouter._handlers`: the handler and the
Zod schema.  The handler is modelled as a total function (routing of
handler-thrown errors is out of scope for the claims below; the router
rethrows them unchanged). -/
structure HandlerRegistration (α ρ : Type) where
  handler : RouterInput α → ρ
  schema : RouterInput α → ValidationResult (RouterInput α)

/-- `MessageRouter.route` (`router.ts`, lines 220–317), with the
observability side channel (span, metrics, optional log callbacks)
erased.  The handler map is modelled by its lookup function
(`this._handlers.get`).

Control flow of the source:
1. `if (!input?.type)` — JS-falsy, i.e. the attribute is absent *or*
   the empty string — throw
   `InvalidInputException('The provided input has no type attribute')`;
2. `this._handlers.get(input.type)` missing — throw
   `NotFoundException('Message handler not found', {reason})`;
3. `schema.safeParse(input)` failing — throw
   `InvalidInputException('The provided input is invalid').fromZodError(e)`;
4. otherwise return `handler(validationResult.data)`. -/
def MessageRouter.route {α ρ : Type}
    (handlers : String → Option (HandlerRegistration α ρ))
    (input : RouterInput α) : Except Exception ρ :=
  match input.type with
  | none =>
      Except.error (invalidInputException
        (some "The provided input has no type attribute") ExceptionDetails.noDetails)
  | some t =>
      if t = "" then
        Except.error (invalidInputException
          (some "The provided input has no type attribute") ExceptionDetails.noDetails)
      else
        match handlers t with
        | none =>
            Except.error (notFoundException
              (some "Message handler not found")
              (ExceptionDetails.notFoundReason
                ("Could not find a handler for message type: \"" ++ t ++ "\"")))
        | some registration =>
            match registration.schema input with
            | ValidationResult.failure err =>
                Except.error
                  ((invalidInputException
                    (some "The provided input is invalid")
                    ExceptionDetails.noDetails).fromZodError err)
            | ValidationResult.success data =>
                Except.ok (registration.handler data)

/-- The legacy functional router `createRouter` (`lib/router/router.ts`).
It performs no missing-`type` check: `handlerMap[input.type]` with an
absent `type` looks up the property key `"undefined"` (JS property
access stringifies the key).  A missing entry throws
`NotFoundException('Route handler not found', {reason})`; a Zod parse
failure throws `new InvalidInputException().fromZodError(e)` (default
message); a successful parse reaches the handler with the parsed
value. -/
def createRouterRoute {α ρ : Type}
    (handlerMap : String → Option (HandlerRegistration α ρ))
    (input : RouterInput α) : Except Exception ρ :=
  let key := match input.type with
    | none => "undefined"
    | some t => t
  match handlerMap key with
  | none =>
      Except.error (notFoundException
        (some "Route handler not found")
        (ExceptionDetails.notFoundReason
          ("Could not find a handler for \"" ++ key ++ "\"")))
  | some registration =>
      match registration.schema input with
      | ValidationResult.failure err =>
          Except.error
            ((invalidInputException none ExceptionDetails.noDetails).fromZodError err)
      | ValidationResult.success data =>
          Except.ok (registration.handler data)

/-! ## JSON serialization (`JSON.stringify`)

`_validateEventSize` measures `new TextEncoder().encode(JSON.stringify(event)).length`,
the UTF-8 byte length of the JSON text.  We model JSON values (numbers as
integers — float formatting is irrelevant to the size-limit claims) and
the standard `JSON.stringify` text, including its string-escaping rules.
-/

/-- A JSON value. -/
inductive Json where
  | null : Json
  | bool (b : Bool) : Json
  | num (n : Int) : Json
  | str (s : String) : Json
  | arr (elems : List Json) : Json
  | obj (fields : List (String × Json)) : Json

/-- Hexadecimal digit character (lower case), as used in `\u00XX` escapes. -/
def hexDigit (n : Nat) : Char :=
  if n < 10 then Char.ofNat (48 + n) else Char.ofNat (87 + n)

/-- `JSON.stringify` escaping of a single character inside a string
literal: `"` and `\` are backslash-escaped, the control characters
backspace/tab/newline/form-feed/carriage-return get their short escapes,
any other char below U+0020 becomes `\u00XX`, everything else is
emitted as itself. -/
def jsonEscapeChar (c : Char) : List Char :=
  if c = '"' then ['\\', '"']
  else if c = '\\' then ['\\', '\\']
  else if c = '\x08' then ['\\', 'b']
  else if c = '\x09' then ['\\', 't']
  else if c = '\x0a' then ['\\', 'n']
  else if c = '\x0c' then ['\\', 'f']
  else if c = '\x0d' then ['\\', 'r']
  else if c.toNat < 32 then ['\\', 'u', '0', '0', hexDigit (c.toNat / 16), hexDigit (c.toNat % 16)]
  else [c]

/-- Escape every character of a string body. -/
def jsonEscapeList : List Char → List Char
  | [] => []
  | c :: cs => jsonEscapeChar c ++ jsonEscapeList cs

/-- A JSON string literal: quotes around the escaped body. -/
def jsonQuote (s : String) : String :=
  "\"" ++ String.mk (jsonEscapeList s.data) ++ "\""

mutual

/-- The `JSON.stringify` text of a JSON value. -/
def jsonStringify : Json → String
  | Json.null => "null"
  | Json.bool true => "true"
  | Json.bool false => "false"
  | Json.num n => toString n
  | Json.str s => jsonQuote s
  | Json.arr elems => "[" ++ jsonStringifyArray elems ++ "]"
  | Json.obj fields => "\x7b" ++ jsonStringifyFields fields ++ "\x7d"

/-- Comma-separated serialization of array elements. -/
def jsonStringifyArray : List Json → String
  | [] => ""
  | [j] => jsonStringify j
  | j :: rest => jsonStringify j ++ "," ++ jsonStringifyArray rest

/-- Comma-separated serialization of object members. -/
def jsonStringifyFields : List (String × Json) → String
  | [] => ""
  | [(k, v)] => jsonQuote k ++ ":" ++ jsonStringify v
  | (k, v) :: rest => jsonQuote k ++ ":" ++ jsonStringify v ++ "," ++ jsonStringifyFields rest

end

/-! ## Event bus (`eventBus.ts`) -/

/-- A CloudEvents event as consumed by `NimbusEventBus` (the `Event`
type of `message/event.ts`).  `datacontenttype` and `dataschema` are
the type's two optional attributes. -/
structure EventMsg where
  specversion : String
  id : String
  correlationid : String
  time : String
  source : String
  type : String
  subject : String
  data : Json
  datacontenttype : Option String
  dataschema : Option String

/-- The JSON object `JSON.stringify` sees for an event: attributes in
the declaration order of the `Event` type, optional attributes omitted
when `undefined`. -/
def EventMsg.toJson (e : EventMsg) : Json :=
  Json.obj
    ([("specversion", Json.str e.specversion), ("id", Json.str e.id),
      ("correlationid", Json.str e.correlationid), ("time", Json.str e.time),
      ("source", Json.str e.source), ("type", Json.str e.type),
      ("subject", Json.str e.subject), ("data", e.data)]
      ++ (match e.datacontenttype with
          | some s => [("datacontenttype", Json.str s)]
          | none => [])
      ++ (match e.dataschema with
          | some s => [("dataschema", Json.str s)]
          | none => []))

/-- `new TextEncoder().encode(JSON.stringify(event)).length`: the UTF-8
byte length of the serialized event. -/
def eventSerializedSize (e : EventMsg) : Nat :=
  (jsonStringify e.toJson).utf8ByteSize

/-- `NimbusEventBus._validateEventSize` (`eventBus.ts`, lines 545–563):
serializes the event, measures the UTF-8 byte length and throws
`GenericException('Event size exceeds the limit of 64KB', {...})` when
it exceeds `64 * 1024` bytes; otherwise returns the size. -/
def validateEventSize (e : EventMsg) : Except Exception Nat :=
  let size := eventSerializedSize e
  let maxSizeBytes := 64 * 1024
  if maxSizeBytes < size then
    Except.error (genericException
      (some "Event size exceeds the limit of 64KB")
      (ExceptionDetails.eventSize e.type e.source size maxSizeBytes))
  else
    Except.ok size

/-- A value thrown by a failing subscriber handler, modelled as a JS
`Error` with a `message` and an optional `stack`. -/
structure JsError where
  message : String
  stack : Option String
deriving DecidableEq, Repr

/-- `NimbusEventBus._handleFinalFailure` (lines 485–523), with metrics
and span bookkeeping erased: wraps the last handler error as
`GenericException('Failed to handle event: <type> from <source>', retryConfig)`
and copies the original error's stack when it is truthy
(`if (error instanceof Error && error.stack)`). -/
def handleFinalFailure (err : JsError) (ev : EventMsg)
    (maxRetries baseDelay maxDelay : Nat) : Exception :=
  let exception := genericException
    (some ("Failed to handle event: " ++ ev.type ++ " from " ++ ev.source))
    (ExceptionDetails.retryConfig maxRetries baseDelay maxDelay)
  if jsTruthyStr err.stack then { exception with stack := err.stack } else exception

/-- The retry loop of `NimbusEventBus._processEvent` (lines 390–471).
`handler k` is the outcome of the `k`-th handler invocation (0-based);
`attempt` is the loop counter of the source, which starts at `0` and is
incremented on each failure.  `_handleFinalFailure` throws, so when
`attempt` exceeds `maxRetries` the loop ends with its exception; the
backoff sleeps do not influence the control flow modelled here (they
are analyzed separately via `calculateRetryDelay`).

The first component of the result counts handler invocations; the
second is the loop's outcome. -/
def processEventGo (handler : Nat → Except JsError Unit) (ev : EventMsg)
    (maxRetries baseDelay maxDelay : Nat) (attempt : Nat) :
    Nat × Except Exception Unit :=
  if attempt ≤ maxRetries then
    match handler attempt with
    | Except.ok _ => (attempt + 1, Except.ok ())
    | Except.error err =>
        if maxRetries < attempt + 1 then
          (attempt + 1,
            Except.error (handleFinalFailure err ev maxRetries baseDelay maxDelay))
        else
          processEventGo handler ev maxRetries baseDelay maxDelay (attempt + 1)
  else
    (attempt, Except.ok ())
termination_by maxRetries + 1 - attempt

/-- `_processEvent`: the loop entered with `attempt = 0`. -/
def processEvent (handler : Nat → Except JsError Unit) (ev : EventMsg)
    (maxRetries baseDelay maxDelay : Nat) : Nat × Except Exception Unit :=
  processEventGo handler ev maxRetries baseDelay maxDelay 0

/-- The `handleEvent` wrapper installed by `subscribeEvent`
(lines 364–385): awaits `_processEvent` and funnels its exception, if
any, to the subscription's error sink (`onError` when supplied, the
error logger otherwise).  The second component lists the calls made to
that sink. -/
def handleEvent (handler : Nat → Except JsError Unit) (ev : EventMsg)
    (maxRetries baseDelay maxDelay : Nat) : Nat × List Exception :=
  match processEvent handler ev maxRetries baseDelay maxDelay with
  | (n, Except.ok _) => (n, [])
  | (n, Except.error e) => (n, [e])

/-- A subscription held by the bus.  The retry parameters are the
effective ones, already resolved at `subscribeEvent` time via
`options?.x ?? this._x` from the subscription's overrides and the bus
defaults. -/
structure Subscription where
  type : String
  handler : Nat → Except JsError Unit
  maxRetries : Nat
  baseDelay : Nat
  maxDelay : Nat

/-- `NimbusEventBus.putEvent` (lines 245–296), with observability
erased: `_validateEventSize` throws before anything else happens (in
particular before `emit`, so no subscriber runs); otherwise
`emit(event.type, event)` hands the event to the `handleEvent` wrapper
of every subscription registered for exactly `event.type`, in
registration order.  The result collects each delivery's
(invocation count, error-sink calls). -/
def putEvent (subscriptions : List Subscription) (ev : EventMsg) :
    Except Exception (List (Nat × List Exception)) :=
  match validateEventSize ev with
  | Except.error e => Except.error e
  | Except.ok _size =>
      Except.ok ((subscriptions.filter (fun sub => sub.type == ev.type)).map
        (fun sub => handleEvent sub.handler ev sub.maxRetries sub.baseDelay sub.maxDelay))

/-- Total number of subscriber-handler invocations caused by one
`putEvent` call. -/
def subscriberInvocations : Except Exception (List (Nat × List Exception)) → Nat
  | Except.error _ => 0
  | Except.ok outcomes => (outcomes.map Prod.fst).sum

/-- `NimbusEventBus._calculateRetryDelay` (lines 525–534) over exact
rationals: `delay = Math.min(baseDelay * 2^(attempt-1), maxDelay)`,
plus `Math.random() * delay * 0.1` when jitter is enabled.  `rand`
models the `Math.random()` draw, a value in `[0, 1)`. -/
def calculateRetryDelay (attempt : Nat) (baseDelay maxDelay : ℚ)
    (useJitter : Bool) (rand : ℚ) : ℚ :=
  let delay := min (baseDelay * 2 ^ (attempt - 1)) maxDelay
  let jitter := if useJitter then rand * delay * (1 / 10) else 0
  delay + jitter

/-! ## Message factories (`command.ts`, `query.ts`, `event.ts`) -/

/-- Truthiness-guarded optional spread `...(x && \x7bx\x7d)`: the
attribute is included only when the provided value is truthy. -/
def truthyOpt (o : Option String) : Option String :=
  if jsTruthyStr o then o else none

/-- Input to `createCommand` / `createQuery`: everything optional
except `source`, `type` and `data` (for commands, `subject` may be
provided). -/
structure CreateMessageInput where
  id : Option String
  correlationid : Option String
  time : Option String
  source : String
  type : String
  subject : Option String
  data : Json
  datacontenttype : Option String
  dataschema : Option String

/-- A command as produced by `createCommand`: `specversion` forced,
`id`/`correlationid`/`time`/`datacontenttype` always present,
`subject`/`dataschema` included only when provided (truthy). -/
structure CommandMsg where
  specversion : String
  id : String
  correlationid : String
  time : String
  source : String
  type : String
  subject : Option String
  data : Json
  datacontenttype : String
  dataschema : Option String

/-- A query as produced by `createQuery` (no `subject` attribute). -/
structure QueryMsg where
  specversion : String
  id : String
  correlationid : String
  time : String
  source : String
  type : String
  data : Json
  datacontenttype : String
  dataschema : Option String

/-- `createCommand` (`command.ts`, lines 124–151).  The nondeterministic
generators are passed explicitly: `ulidId`/`ulidCorr` are the two
`ulid()` draws and `nowIso` is `new Date().toISOString()`.  `??` is
nullish coalescing, modelled by `Option.getD`. -/
def createCommand (input : CreateMessageInput) (ulidId ulidCorr nowIso : String) :
    CommandMsg :=
  { specversion := "1.0"
    id := input.id.getD ulidId
    correlationid := input.correlationid.getD ulidCorr
    time := input.time.getD nowIso
    source := input.source
    type := input.type
    subject := truthyOpt input.subject
    data := input.data
    datacontenttype := input.datacontenttype.getD "application/json"
    dataschema := truthyOpt input.dataschema }

/-- `createQuery` (`query.ts`, lines 118–143). -/
def createQuery (input : CreateMessageInput) (ulidId ulidCorr nowIso : String) :
    QueryMsg :=
  { specversion := "1.0"
    id := input.id.getD ulidId
    correlationid := input.correlationid.getD ulidCorr
    time := input.time.getD nowIso
    source := input.source
    type := input.type
    data := input.data
    datacontenttype := input.datacontenttype.getD "application/json"
    dataschema := truthyOpt input.dataschema }

/-- Input to `createEvent`: like the command input but `subject` is
required. -/
structure CreateEventInput where
  id : Option String
  correlationid : Option String
  time : Option String
  source : String
  type : String
  subject : String
  data : Json
  datacontenttype : Option String
  dataschema : Option String

/-- `createEvent` (`event.ts`, lines 128–155): `subject` is passed
through unconditionally, `datacontenttype` is always populated. -/
def createEvent (input : CreateEventInput) (ulidId ulidCorr nowIso : String) :
    EventMsg :=
  { specversion := "1.0"
    id := input.id.getD ulidId
    correlationid := input.correlationid.getD ulidCorr
    time := input.time.getD nowIso
    source := input.source
    type := input.type
    subject := input.subject
    data := input.data
    datacontenttype := some (input.datacontenttype.getD "application/json")
    dataschema := truthyOpt input.dataschema }

/-! ## Concrete router fixtures used by witnesses and counterexamples -/

/-- Keep only the keys a schema knows about.  `aNumber` plays the role
of the single declared field, as in the repository's `TestCommandData`
schema. -/
def stripFields (b : List (String × String)) : List (String × String) :=
  b.filter (fun kv => kv.1 == "aNumber")

/-- A Zod object schema in its default, non-strict mode (as every
schema of the repository is — none uses `.passthrough()` or
`.strict()`): `safeParse` succeeds and returns the object with the keys
unknown to the schema stripped. -/
def stripSchema :
    RouterInput (List (String × String)) →
      ValidationResult (RouterInput (List (String × String))) :=
  fun x => ValidationResult.success { x with body := stripFields x.body }

/-- A handler that returns the body it received, so that its output
reveals exactly which fields reached it. -/
def echoHandler : RouterInput (List (String × String)) → List (String × String) :=
  fun x => x.body

/-- A router with `echoHandler`/`stripSchema` registered under
`test.command`. -/
def stripRouterHandlers :
    String → Option (HandlerRegistration (List (String × String)) (List (String × String))) :=
  fun t => if t = "test.command" then some ⟨echoHandler, stripSchema⟩ else none

/-- A `test.command` input carrying one field the schema knows
(`aNumber`) and one it does not (`extension`). -/
def extraFieldInput : RouterInput (List (String × String)) :=
  { type := some "test.command"
    correlationid := none
    body := [("aNumber", "1"), ("extension", "kept")] }

/-- `extraFieldInput` after validation: the unknown field is gone. -/
def strippedInput : RouterInput (List (String × String)) :=
  { type := some "test.command"
    correlationid := none
    body := [("aNumber", "1")] }

/-- The issue list of scenario S3 of the repository's router tests. -/
def sampleIssue : ZodIssue :=
  { code := "invalid_type"
    expected := some "number"
    received := some "string"
    path := ["data", "aNumber"]
    message := "Expected number, received string" }

/-- A schema that always fails with `sampleIssue`. -/
def failingSchema :
    RouterInput (List (String × String)) →
      ValidationResult (RouterInput (List (String × String))) :=
  fun _ => ValidationResult.failure { issues := [sampleIssue], stack := some "ZodError: stack" }

/-- A router with `echoHandler`/`failingSchema` registered under
`test.event`. -/
def failRouterHandlers :
    String → Option (HandlerRegistration (List (String × String)) (List (String × String))) :=
  fun t => if t = "test.event" then some ⟨echoHandler, failingSchema⟩ else none

/-! ## Claims about the message router -/

/-- C8: an input without a `type` attribute is rejected by
`MessageRouter.route` with an `InvalidInput` exception whose message is
"The provided input has no type attribute". -/
theorem claim_C8_missing_type {α ρ : Type}
    (handlers : String → Option (HandlerRegistration α ρ)) (x : RouterInput α)
    (h : x.type = none) :
    ∃ e, MessageRouter.route handlers x = Except.error e ∧
      e.name = "INVALID_INPUT" ∧ e.statusCode = some 400 ∧
      e.message = "The provided input has no type attribute" := by
  refine ⟨invalidInputException
    (some "The provided input has no type attribute") ExceptionDetails.noDetails,
    ?_, rfl, rfl, rfl⟩
  simp only [MessageRouter.route, h]

/-- C8 witness: concrete typeless input against an empty router. -/
theorem claim_C8_witness :
    ((⟨none, none, ()⟩ : RouterInput Unit).type = none) ∧
    ∃ e, MessageRouter.route (fun _ => (none : Option (HandlerRegistration Unit Unit)))
        ⟨none, none, ()⟩ = Except.error e ∧
      e.name = "INVALID_INPUT" ∧ e.statusCode = some 400 ∧
      e.message = "The provided input has no type attribute" :=
  ⟨rfl, claim_C8_missing_type _ _ rfl⟩

/-- C10: an input whose `type` attribute is the empty string is treated
like a missing type (the JS check `!input?.type` is a falsiness check),
so `route` rejects with the same `InvalidInput` exception whatever is
registered — in particular the result is never a `NotFound`, even when
a handler is registered under the key `""`. -/
theorem claim_C10_empty_type {α ρ : Type}
    (handlers : String → Option (HandlerRegistration α ρ)) (x : RouterInput α)
    (h : x.type = some "") :
    ∃ e, MessageRouter.route handlers x = Except.error e ∧
      e.name = "INVALID_INPUT" ∧
      e.message = "The provided input has no type attribute" ∧
      e.name ≠ "NOT_FOUND" := by
  refine ⟨invalidInputException
    (some "The provided input has no type attribute") ExceptionDetails.noDetails,
    ?_, rfl, rfl, by decide⟩
  simp only [MessageRouter.route, h, reduceIte]

/-- C10 witness: a handler *is* registered under `""`, and the
empty-typed input is still rejected as `InvalidInput`. -/
theorem claim_C10_witness :
    ((⟨some "", none, [] ⟩ : RouterInput (List (String × String))).type = some "") ∧
    ∃ e, MessageRouter.route
        (fun t => if t = "" then some ⟨echoHandler, stripSchema⟩ else none)
        (⟨some "", none, []⟩ : RouterInput (List (String × String))) = Except.error e ∧
      e.name = "INVALID_INPUT" ∧
      e.message = "The provided input has no type attribute" ∧
      e.name ≠ "NOT_FOUND" :=
  ⟨rfl, claim_C10_empty_type _ _ rfl⟩

/-- C6: a non-empty `type` with no registered handler is rejected with
`NotFound` (status 404), message "Message handler not found", and a
`reason` detail naming the type. -/
theorem claim_C6_unknown_type {α ρ : Type}
    (handlers : String → Option (HandlerRegistration α ρ)) (x : RouterInput α)
    (t : String) (ht : x.type = some t) (hne : t ≠ "") (hmiss : handlers t = none) :
    ∃ e, MessageRouter.route handlers x = Except.error e ∧
      e.name = "NOT_FOUND" ∧ e.statusCode = some 404 ∧
      e.message = "Message handler not found" ∧
      e.details = ExceptionDetails.notFoundReason
        ("Could not find a handler for message type: \"" ++ t ++ "\"") := by
  refine ⟨notFoundException (some "Message handler not found")
    (ExceptionDetails.notFoundReason
      ("Could not find a handler for message type: \"" ++ t ++ "\"")),
    ?_, rfl, rfl, rfl, rfl⟩
  simp only [MessageRouter.route, ht, if_neg hne, hmiss]

/-- C6 witness: routing type `nobody.home` on an empty router. -/
theorem claim_C6_witness :
    ((⟨some "nobody.home", none, ()⟩ : RouterInput Unit).type = some "nobody.home") ∧
    ("nobody.home" ≠ "") ∧
    ((fun _ => (none : Option (HandlerRegistration Unit Unit))) "nobody.home" = none) ∧
    ∃ e, MessageRouter.route (fun _ => (none : Option (HandlerRegistration Unit Unit)))
        ⟨some "nobody.home", none, ()⟩ = Except.error e ∧
      e.name = "NOT_FOUND" ∧ e.statusCode = some 404 ∧
      e.message = "Message handler not found" ∧
      e.details = ExceptionDetails.notFoundReason
        ("Could not find a handler for message type: \"" ++ "nobody.home" ++ "\"") :=
  ⟨rfl, by decide, rfl, claim_C6_unknown_type _ _ _ rfl (by decide) rfl⟩

/-- C7: the legacy `createRouter` with an empty handler map rejects an
input of type `UNKNOWN_EVENT` with a `NotFound` exception whose message
is "Route handler not found". -/
theorem claim_C7_legacy_unknown_type {α ρ : Type} (body : α) (corr : Option String) :
    ∃ e, createRouterRoute (fun _ => (none : Option (HandlerRegistration α ρ)))
        ⟨some "UNKNOWN_EVENT", corr, body⟩ = Except.error e ∧
      e.name = "NOT_FOUND" ∧ e.statusCode = some 404 ∧
      e.message = "Route handler not found" :=
  ⟨_, rfl, rfl, rfl, rfl⟩

/-- C5: a registered type whose schema fails validation is rejected
with `InvalidInput`, message "The provided input is invalid", and
`details.issues` equal to the validator's issue list. -/
theorem claim_C5_validation_failure {α ρ : Type}
    (handlers : String → Option (HandlerRegistration α ρ)) (x : RouterInput α)
    (t : String) (reg : HandlerRegistration α ρ) (err : ZodError)
    (ht : x.type = some t) (hne : t ≠ "") (hreg : handlers t = some reg)
    (hfail : reg.schema x = ValidationResult.failure err) :
    ∃ e, MessageRouter.route handlers x = Except.error e ∧
      e.name = "INVALID_INPUT" ∧ e.statusCode = some 400 ∧
      e.message = "The provided input is invalid" ∧
      e.details = ExceptionDetails.zodIssues err.issues := by
  refine ⟨(invalidInputException (some "The provided input is invalid")
    ExceptionDetails.noDetails).fromZodError err, ?_, rfl, rfl, ?_, rfl⟩
  · simp only [MessageRouter.route, ht, if_neg hne, hreg, hfail]
  · simp [Exception.fromZodError, invalidInputException]

/-- C5 witness: the S3 scenario — schema failing with the
`invalid_type` issue at `["data", "aNumber"]`. -/
theorem claim_C5_witness :
    ((⟨some "test.event", none, [("aNumber", "x")]⟩ :
        RouterInput (List (String × String))).type = some "test.event") ∧
    ("test.event" ≠ "") ∧
    (failRouterHandlers "test.event" = some ⟨echoHandler, failingSchema⟩) ∧
    (failingSchema ⟨some "test.event", none, [("aNumber", "x")]⟩ =
      ValidationResult.failure { issues := [sampleIssue], stack := some "ZodError: stack" }) ∧
    ∃ e, MessageRouter.route failRouterHandlers
        ⟨some "test.event", none, [("aNumber", "x")]⟩ = Except.error e ∧
      e.name = "INVALID_INPUT" ∧ e.statusCode = some 400 ∧
      e.message = "The provided input is invalid" ∧
      e.details = ExceptionDetails.zodIssues
        ({ issues := [sampleIssue], stack := some "ZodError: stack" } : ZodError).issues :=
  ⟨rfl, by decide, rfl, rfl,
    claim_C5_validation_failure failRouterHandlers _ "test.event" _ _ rfl (by decide) rfl rfl⟩

/-- C1, counterexample: with the repository's non-strict Zod object
schemas, `safeParse` succeeds but *strips* the fields unknown to the
schema, and `route` hands the handler `validationResult.data`, not the
input itself.  On `extraFieldInput` the schema succeeds, yet the routed
result differs from `handler(x)`: the `extension` field did not survive
validation. -/
theorem claim_C1_counterexample :
    (stripSchema extraFieldInput = ValidationResult.success strippedInput) ∧
    MessageRouter.route stripRouterHandlers extraFieldInput ≠
      Except.ok (echoHandler extraFieldInput) := by
  refine ⟨rfl, ?_⟩
  have hroute : MessageRouter.route stripRouterHandlers extraFieldInput =
      Except.ok [("aNumber", "1")] := rfl
  rw [hroute]
  intro hcontra
  exact absurd (Except.ok.inj hcontra) (by decide)

/-- C1, amended: when the registered schema validates successfully,
`route(x)` resolves to the handler applied to the *validated value*
`S(x).data` (which equals `x` only when the schema passes the input
through unchanged; the default non-strict Zod object schemas strip
unknown fields instead of preserving them). -/
theorem claim_C1_routes_validated_value {α ρ : Type}
    (handlers : String → Option (HandlerRegistration α ρ)) (x : RouterInput α)
    (t : String) (reg : HandlerRegistration α ρ) (v : RouterInput α)
    (ht : x.type = some t) (hne : t ≠ "") (hreg : handlers t = some reg)
    (hok : reg.schema x = ValidationResult.success v) :
    MessageRouter.route handlers x = Except.ok (reg.handler v) := by
  simp only [MessageRouter.route, ht, if_neg hne, hreg, hok]

/-- C1 witness: the stripped value — and only it — reaches the handler. -/
theorem claim_C1_witness :
    (extraFieldInput.type = some "test.command") ∧ ("test.command" ≠ "") ∧
    (stripRouterHandlers "test.command" = some ⟨echoHandler, stripSchema⟩) ∧
    (stripSchema extraFieldInput = ValidationResult.success strippedInput) ∧
    MessageRouter.route stripRouterHandlers extraFieldInput =
      Except.ok (echoHandler strippedInput) :=
  ⟨rfl, by decide, rfl, rfl,
    claim_C1_routes_validated_value stripRouterHandlers extraFieldInput "test.command"
      ⟨echoHandler, stripSchema⟩ strippedInput rfl (by decide) rfl rfl⟩

/-! ## Claims about the message factories -/

/-- C9: every factory (`createCommand`, `createQuery`, `createEvent`)
called without `id`, `correlationid`, `time` and `datacontenttype`
populates all four (the two ULID draws, the current ISO timestamp, and
`application/json`) and forces `specversion = "1.0"`. -/
theorem claim_C9_factory_defaults
    (input : CreateMessageInput) (einput : CreateEventInput)
    (ulidId ulidCorr nowIso : String)
    (h1 : input.id = none) (h2 : input.correlationid = none)
    (h3 : input.time = none) (h4 : input.datacontenttype = none)
    (g1 : einput.id = none) (g2 : einput.correlationid = none)
    (g3 : einput.time = none) (g4 : einput.datacontenttype = none) :
    ((createCommand input ulidId ulidCorr nowIso).specversion = "1.0" ∧
      (createCommand input ulidId ulidCorr nowIso).id = ulidId ∧
      (createCommand input ulidId ulidCorr nowIso).correlationid = ulidCorr ∧
      (createCommand input ulidId ulidCorr nowIso).time = nowIso ∧
      (createCommand input ulidId ulidCorr nowIso).datacontenttype = "application/json") ∧
    ((createQuery input ulidId ulidCorr nowIso).specversion = "1.0" ∧
      (createQuery input ulidId ulidCorr nowIso).id = ulidId ∧
      (createQuery input ulidId ulidCorr nowIso).correlationid = ulidCorr ∧
      (createQuery input ulidId ulidCorr nowIso).time = nowIso ∧
      (createQuery input ulidId ulidCorr nowIso).datacontenttype = "application/json") ∧
    ((createEvent einput ulidId ulidCorr nowIso).specversion = "1.0" ∧
      (createEvent einput ulidId ulidCorr nowIso).id = ulidId ∧
      (createEvent einput ulidId ulidCorr nowIso).correlationid = ulidCorr ∧
      (createEvent einput ulidId ulidCorr nowIso).time = nowIso ∧
      (createEvent einput ulidId ulidCorr nowIso).datacontenttype =
        some "application/json") := by
  simp [createCommand, createQuery, createEvent, h1, h2, h3, h4, g1, g2, g3, g4]

/-- C9 witness: concrete factory calls without the four attributes. -/
theorem claim_C9_witness :
    (({ id := none, correlationid := none, time := none,
        source := "https://api.example.com", type := "test.command",
        subject := none, data := Json.null, datacontenttype := none,
        dataschema := none } : CreateMessageInput).id = none) ∧
    ((createCommand
        { id := none, correlationid := none, time := none,
          source := "https://api.example.com", type := "test.command",
          subject := none, data := Json.null, datacontenttype := none,
          dataschema := none } "01ULIDA" "01ULIDB" "2025-06-01T00:00:00Z").specversion
      = "1.0" ∧
      (createCommand
        { id := none, correlationid := none, time := none,
          source := "https://api.example.com", type := "test.command",
          subject := none, data := Json.null, datacontenttype := none,
          dataschema := none } "01ULIDA" "01ULIDB" "2025-06-01T00:00:00Z").id
      = "01ULIDA" ∧
      (createCommand
        { id := none, correlationid := none, time := none,
          source := "https://api.example.com", type := "test.command",
          subject := none, data := Json.null, datacontenttype := none,
          dataschema := none } "01ULIDA" "01ULIDB" "2025-06-01T00:00:00Z").correlationid
      = "01ULIDB" ∧
      (createCommand
        { id := none, correlationid := none, time := none,
          source := "https://api.example.com", type := "test.command",
          subject := none, data := Json.null, datacontenttype := none,
          dataschema := none } "01ULIDA" "01ULIDB" "2025-06-01T00:00:00Z").time
      = "2025-06-01T00:00:00Z" ∧
      (createCommand
        { id := none, correlationid := none, time := none,
          source := "https://api.example.com", type := "test.command",
          subject := none, data := Json.null, datacontenttype := none,
          dataschema := none } "01ULIDA" "01ULIDB" "2025-06-01T00:00:00Z").datacontenttype
      = "application/json") ∧
    ((createQuery
        { id := none, correlationid := none, time := none,
          source := "https://api.example.com", type := "test.command",
          subject := none, data := Json.null, datacontenttype := none,
          dataschema := none } "01ULIDA" "01ULIDB" "2025-06-01T00:00:00Z").specversion
      = "1.0" ∧
      (createQuery
        { id := none, correlationid := none, time := none,
          source := "https://api.example.com", type := "test.command",
          subject := none, data := Json.null, datacontenttype := none,
          dataschema := none } "01ULIDA" "01ULIDB" "2025-06-01T00:00:00Z").id
      = "01ULIDA" ∧
      (createQuery
        { id := none, correlationid := none, time := none,
          source := "https://api.example.com", type := "test.command",
          subject := none, data := Json.null, datacontenttype := none,
          dataschema := none } "01ULIDA" "01ULIDB" "2025-06-01T00:00:00Z").correlationid
      = "01ULIDB" ∧
      (createQuery
        { id := none, correlationid := none, time := none,
          source := "https://api.example.com", type := "test.command",
          subject := none, data := Json.null, datacontenttype := none,
          dataschema := none } "01ULIDA" "01ULIDB" "2025-06-01T00:00:00Z").time
      = "2025-06-01T00:00:00Z" ∧
      (createQuery
        { id := none, correlationid := none, time := none,
          source := "https://api.example.com", type := "test.command",
          subject := none, data := Json.null, datacontenttype := none,
          dataschema := none } "01ULIDA" "01ULIDB" "2025-06-01T00:00:00Z").datacontenttype
      = "application/json") ∧
    ((createEvent
        { id := none, correlationid := none, time := none,
          source := "https://api.example.com", type := "test.event",
          subject := "/tests/1", data := Json.null, datacontenttype := none,
          dataschema := none } "01ULIDA" "01ULIDB" "2025-06-01T00:00:00Z").specversion
      = "1.0" ∧
      (createEvent
        { id := none, correlationid := none, time := none,
          source := "https://api.example.com", type := "test.event",
          subject := "/tests/1", data := Json.null, datacontenttype := none,
          dataschema := none } "01ULIDA" "01ULIDB" "2025-06-01T00:00:00Z").id
      = "01ULIDA" ∧
      (createEvent
        { id := none, correlationid := none, time := none,
          source := "https://api.example.com", type := "test.event",
          subject := "/tests/1", data := Json.null, datacontenttype := none,
          dataschema := none } "01ULIDA" "01ULIDB" "2025-06-01T00:00:00Z").correlationid
      = "01ULIDB" ∧
      (createEvent
        { id := none, correlationid := none, time := none,
          source := "https://api.example.com", type := "test.event",
          subject := "/tests/1", data := Json.null, datacontenttype := none,
          dataschema := none } "01ULIDA" "01ULIDB" "2025-06-01T00:00:00Z").time
      = "2025-06-01T00:00:00Z" ∧
      (createEvent
        { id := none, correlationid := none, time := none,
          source := "https://api.example.com", type := "test.event",
          subject := "/tests/1", data := Json.null, datacontenttype := none,
          dataschema := none } "01ULIDA" "01ULIDB" "2025-06-01T00:00:00Z").datacontenttype
      = some "application/json") :=
  ⟨rfl, claim_C9_factory_defaults _ _ _ _ _ rfl rfl rfl rfl rfl rfl rfl rfl⟩

/-! ## Claims about the retry backoff -/

/-- C3, counterexample: with `baseDelay = 0` (a permitted retry-policy
value) the capped delay `min(0 * 2^0, 30000)` is `0`, the computed
sleep is `0`, and the half-open interval `[0, 1.1 * 0)` claimed for the
jittered case is empty — the claim fails at this input. -/
theorem claim_C3_counterexample :
    ¬ (min ((0 : ℚ) * 2 ^ (1 - 1)) 30000 ≤ calculateRetryDelay 1 0 30000 true 0 ∧
      calculateRetryDelay 1 0 30000 true 0 <
        (11 / 10) * min ((0 : ℚ) * 2 ^ (1 - 1)) 30000) := by
  intro h
  have h2 := h.2
  norm_num [calculateRetryDelay] at h2

set_option linter.unusedVariables false in
/-- C3, amended: writing `d = min(baseDelay * 2^(n-1), maxDelay)` for
the capped delay of retry attempt `n ≥ 1` under a retry policy with
nonnegative delays, the computed sleep equals `d` exactly when
`useJitter` is false; when `useJitter` is true it is at least `d`, lies
strictly below `1.1 * d` whenever `d > 0`, and equals `0` when `d = 0`
(the interval `[d, 1.1 * d)` of the original claim is empty in that
degenerate case). -/
theorem claim_C3_backoff_bounds (n : Nat) (baseDelay maxDelay rand : ℚ)
    (hn : 1 ≤ n) (hb : 0 ≤ baseDelay) (hm : 0 ≤ maxDelay)
    (hr0 : 0 ≤ rand) (hr1 : rand < 1) :
    calculateRetryDelay n baseDelay maxDelay false rand =
      min (baseDelay * 2 ^ (n - 1)) maxDelay ∧
    min (baseDelay * 2 ^ (n - 1)) maxDelay ≤
      calculateRetryDelay n baseDelay maxDelay true rand ∧
    (0 < min (baseDelay * 2 ^ (n - 1)) maxDelay →
      calculateRetryDelay n baseDelay maxDelay true rand <
        (11 / 10) * min (baseDelay * 2 ^ (n - 1)) maxDelay) ∧
    (min (baseDelay * 2 ^ (n - 1)) maxDelay = 0 →
      calculateRetryDelay n baseDelay maxDelay true rand = 0) := by
  have hd : 0 ≤ min (baseDelay * 2 ^ (n - 1)) maxDelay := by
    have : (0 : ℚ) ≤ baseDelay * 2 ^ (n - 1) := by positivity
    exact le_min this hm
  refine ⟨?_, ?_, ?_, ?_⟩
  · simp [calculateRetryDelay]
  · simp only [calculateRetryDelay, if_pos]
    nlinarith [mul_nonneg (mul_nonneg hr0 hd) (by norm_num : (0 : ℚ) ≤ 1 / 10)]
  · intro hpos
    simp only [calculateRetryDelay, if_pos]
    nlinarith
  · intro hzero
    simp [calculateRetryDelay, hzero]

/-- C3 witness: attempt 3 with base 1000 ms, cap 30000 ms and a
mid-range random draw. -/
theorem claim_C3_witness :
    ((1 : Nat) ≤ 3 ∧ (0 : ℚ) ≤ 1000 ∧ (0 : ℚ) ≤ 30000 ∧
      (0 : ℚ) ≤ 1 / 2 ∧ (1 / 2 : ℚ) < 1) ∧
    (calculateRetryDelay 3 1000 30000 false (1 / 2) =
      min ((1000 : ℚ) * 2 ^ (3 - 1)) 30000 ∧
    min ((1000 : ℚ) * 2 ^ (3 - 1)) 30000 ≤
      calculateRetryDelay 3 1000 30000 true (1 / 2) ∧
    (0 < min ((1000 : ℚ) * 2 ^ (3 - 1)) 30000 →
      calculateRetryDelay 3 1000 30000 true (1 / 2) <
        (11 / 10) * min ((1000 : ℚ) * 2 ^ (3 - 1)) 30000) ∧
    (min ((1000 : ℚ) * 2 ^ (3 - 1)) 30000 = 0 →
      calculateRetryDelay 3 1000 30000 true (1 / 2) = 0)) :=
  ⟨by norm_num,
    claim_C3_backoff_bounds 3 1000 30000 (1 / 2)
      (by norm_num) (by norm_num) (by norm_num) (by norm_num) (by norm_num)⟩

/-! ## Claims about retry exhaustion -/

/-- With a handler failing on every invocation, the retry loop started
at any `attempt ≤ maxRetries` runs to exhaustion: the final invocation
count is `maxRetries + 1` and the loop ends with the
`_handleFinalFailure` exception wrapping the last error. -/
theorem processEventGo_always_fails (errs : Nat → JsError) (ev : EventMsg)
    (r bd md : Nat) :
    ∀ n a, r - a = n → a ≤ r →
      processEventGo (fun k => Except.error (errs k)) ev r bd md a =
        (r + 1, Except.error (handleFinalFailure (errs r) ev r bd md)) := by
  intro n
  induction n with
  | zero =>
      intro a hn ha
      have haa : a = r := by omega
      subst haa
      rw [processEventGo]
      simp
  | succ n ih =>
      intro a hn ha
      have hlt : a < r := by omega
      rw [processEventGo]
      simp only [if_pos ha]
      have hnot : ¬ r < a + 1 := by omega
      simp only [if_neg hnot]
      exact ih (a + 1) (by omega) (by omega)

/-- C2: one delivery of an event to a subscription with effective retry
limit `r` and a handler that throws on every invocation invokes the
handler exactly `r + 1` times, after which the error sink (`onError`
when supplied) is called exactly once with a `Generic` exception whose
message is `Failed to handle event: <type> from <source>` and whose
stack is the original (last) error's stack when that is available. -/
theorem claim_C2_retry_exhaustion (errs : Nat → JsError) (ev : EventMsg)
    (r bd md : Nat) :
    ∃ e, handleEvent (fun k => Except.error (errs k)) ev r bd md = (r + 1, [e]) ∧
      e.name = "INTERNAL_SERVER_ERROR" ∧ e.statusCode = some 500 ∧
      e.message = "Failed to handle event: " ++ ev.type ++ " from " ++ ev.source ∧
      (∀ s, (errs r).stack = some s → s ≠ "" → e.stack = some s) := by
  refine ⟨handleFinalFailure (errs r) ev r bd md, ?_, ?_, ?_, ?_, ?_⟩
  · unfold handleEvent processEvent
    rw [processEventGo_always_fails errs ev r bd md r 0 (by omega) (by omega)]
  · by_cases h : jsTruthyStr (errs r).stack <;>
      simp [handleFinalFailure, genericException, h]
  · by_cases h : jsTruthyStr (errs r).stack <;>
      simp [handleFinalFailure, genericException, h]
  · by_cases h : jsTruthyStr (errs r).stack <;>
      simp [handleFinalFailure, genericException, h]
  · intro s hs hne
    have htruthy : jsTruthyStr (some s) = true := by
      simp [jsTruthyStr, hne]
    simp [handleFinalFailure, hs, htruthy]

/-- C2 witness: the repository's own exhaustion test — `maxRetries = 2`
with a handler that always throws `Always fails`: three invocations and
one sink call. -/
theorem claim_C2_witness :
    ∃ e, handleEvent (fun _ => Except.error ⟨"Always fails", some "Error: Always fails"⟩)
        { specversion := "1.0", id := "e1", correlationid := "c1",
          time := "2025-01-01T00:00:00Z", source := "https://test.nimbus.overlap.at",
          type := "test.event.retry-exhausted", subject := "/test",
          data := Json.null, datacontenttype := none, dataschema := none }
        2 10 100 = (2 + 1, [e]) ∧
      e.name = "INTERNAL_SERVER_ERROR" ∧ e.statusCode = some 500 ∧
      e.message = "Failed to handle event: " ++ "test.event.retry-exhausted" ++
        " from " ++ "https://test.nimbus.overlap.at" ∧
      (∀ s, (⟨"Always fails", some "Error: Always fails"⟩ : JsError).stack = some s →
        s ≠ "" → e.stack = some s) :=
  claim_C2_retry_exhaustion (fun _ => ⟨"Always fails", some "Error: Always fails"⟩)
    { specversion := "1.0", id := "e1", correlationid := "c1",
      time := "2025-01-01T00:00:00Z", source := "https://test.nimbus.overlap.at",
      type := "test.event.retry-exhausted", subject := "/test",
      data := Json.null, datacontenttype := none, dataschema := none }
    2 10 100

/-! ## Claims about the event size limit -/

/-- C4: an event whose JSON serialization exceeds `64 * 1024` UTF-8
bytes makes `putEvent` throw the `Generic`
"Event size exceeds the limit of 64KB" exception with the
`{eventType, eventSource, eventSizeBytes, maxSizeBytes}` details, and
no subscriber handler is invoked for that call. -/
theorem claim_C4_size_limit (subs : List Subscription) (ev : EventMsg)
    (h : 64 * 1024 < eventSerializedSize ev) :
    ∃ e, putEvent subs ev = Except.error e ∧
      e.name = "INTERNAL_SERVER_ERROR" ∧ e.statusCode = some 500 ∧
      e.message = "Event size exceeds the limit of 64KB" ∧
      e.details = ExceptionDetails.eventSize ev.type ev.source
        (eventSerializedSize ev) (64 * 1024) ∧
      subscriberInvocations (putEvent subs ev) = 0 := by
  have hval : validateEventSize ev = Except.error (genericException
      (some "Event size exceeds the limit of 64KB")
      (ExceptionDetails.eventSize ev.type ev.source (eventSerializedSize ev)
        (64 * 1024))) := by
    simp [validateEventSize, h]
  refine ⟨genericException (some "Event size exceeds the limit of 64KB")
      (ExceptionDetails.eventSize ev.type ev.source (eventSerializedSize ev)
        (64 * 1024)), ?_, rfl, rfl, rfl, rfl, ?_⟩
  · simp [putEvent, hval]
  · simp [putEvent, hval, subscriberInvocations]

/-! ### A concrete oversize event (scenario S6 of the repository tests) -/

/-- `'x'.repeat(65 * 1024)`. -/
def bigX : String := String.mk (List.replicate 66560 'x')

/-- The oversize event of the `EventBus rejects event that exceeds the
64KB size limit` test. -/
def bigEvent : EventMsg :=
  { specversion := "1.0"
    id := "123"
    correlationid := "456"
    time := "2025-01-01T00:00:00Z"
    source := "https://nimbus.overlap.at"
    type := "at.overlap.nimbus.test-event"
    subject := "/test"
    data := Json.obj [("bigData", Json.str bigX)]
    datacontenttype := none
    dataschema := none }

theorem jsonEscapeChar_x : jsonEscapeChar 'x' = ['x'] := rfl

theorem jsonEscapeList_replicate_x (n : Nat) :
    jsonEscapeList (List.replicate n 'x') = List.replicate n 'x' := by
  induction n with
  | zero => rfl
  | succ n ih => simp [List.replicate, jsonEscapeList, jsonEscapeChar_x, ih]

theorem utf8Len_replicate_x (n : Nat) :
    String.utf8Len (List.replicate n 'x') = n := by
  induction n with
  | zero => rfl
  | succ n ih =>
      simp [List.replicate, String.utf8Len_cons, ih,
        show ('x'.utf8Size) = 1 from rfl]

/-- UTF-8 byte length distributes over string concatenation. -/
theorem appendUtf8ByteSize (a b : String) :
    (a ++ b).utf8ByteSize = a.utf8ByteSize + b.utf8ByteSize := by
  cases a with
  | mk as =>
    cases b with
    | mk bs =>
      show (String.mk (as ++ bs)).utf8ByteSize = _
      simp [String.utf8ByteSize_mk, String.utf8Len_append]

/-- The quoted serialization of `bigX` is 66 560 bytes plus 2 quotes. -/
theorem jsonQuote_bigX : (jsonQuote bigX).utf8ByteSize = 66562 := by
  unfold jsonQuote bigX
  rw [show (String.mk (List.replicate 66560 'x')).data = List.replicate 66560 'x' from rfl]
  rw [jsonEscapeList_replicate_x]
  rw [appendUtf8ByteSize, appendUtf8ByteSize]
  rw [show ({ data := List.replicate 66560 'x' } : String).utf8ByteSize =
    String.utf8Len (List.replicate 66560 'x') from rfl]
  rw [utf8Len_replicate_x]
  rfl

/-- `bigEvent` exceeds the 64 KiB limit. -/
theorem bigEvent_oversize : 64 * 1024 < eventSerializedSize bigEvent := by
  have hjson : bigEvent.toJson = Json.obj
      [("specversion", Json.str "1.0"), ("id", Json.str "123"),
       ("correlationid", Json.str "456"),
       ("time", Json.str "2025-01-01T00:00:00Z"),
       ("source", Json.str "https://nimbus.overlap.at"),
       ("type", Json.str "at.overlap.nimbus.test-event"),
       ("subject", Json.str "/test"),
       ("data", Json.obj [("bigData", Json.str bigX)])] := rfl
  unfold eventSerializedSize
  rw [hjson]
  simp only [jsonStringify, jsonStringifyFields, appendUtf8ByteSize, jsonQuote_bigX]
  omega

/-- C4 witness: the S6 oversize event against a one-subscription bus. -/
theorem claim_C4_witness :
    (64 * 1024 < eventSerializedSize bigEvent) ∧
    ∃ e, putEvent [⟨"at.overlap.nimbus.test-event", fun _ => Except.ok (), 2, 1000, 30000⟩]
        bigEvent = Except.error e ∧
      e.name = "INTERNAL_SERVER_ERROR" ∧ e.statusCode = some 500 ∧
      e.message = "Event size exceeds the limit of 64KB" ∧
      e.details = ExceptionDetails.eventSize bigEvent.type bigEvent.source
        (eventSerializedSize bigEvent) (64 * 1024) ∧
      subscriberInvocations (putEvent
        [⟨"at.overlap.nimbus.test-event", fun _ => Except.ok (), 2, 1000, 30000⟩]
        bigEvent) = 0 :=
  ⟨bigEvent_oversize, claim_C4_size_limit _ _ bigEvent_oversize⟩

end Nimbus
